import Mathlib

set_option autoImplicit false
set_option maxHeartbeats 1000000

/- Shallow embedding of the core of the psycho-trainer repository:
   the context/cache budgeting engine of src/services/ClaudeService.js
   (token estimation, cache strategy selection, sliding-window assembly and
   history summarization), its rate limiter and conversation persistence,
   and the inactivity-timer machinery of src/services/SessionService.js. -/

/-- A transcript message as the JS code passes it around: a plain object whose
role and content fields may be absent (undefined), modelled as Option. -/
structure Msg where
  role : Option String
  content : Option String
deriving DecidableEq

/-- A message of the outgoing request payload. buildSimpleSystemCache and
buildSlidingWindowCache emit records holding only role and content; the
cache_control field models presence of a cache annotation on the element
(none means the field is absent, as in the source, which never sets it
on a message). -/
structure OutMsg where
  role : Option String
  content : Option String
  cache_control : Option String
deriving DecidableEq

/-- One entry of the system array of the request payload, as built by the
source: a record with type, text and an optional cache_control annotation. -/
structure SystemSegment where
  type : String
  text : String
  cache_control : Option String
deriving DecidableEq

/-- The request shape returned by buildMessagesWithCache: an optional system
array (the field is absent when the source never assigns result.system) and
the messages array. -/
structure Payload where
  system : Option (List SystemSegment)
  messages : List OutMsg
deriving DecidableEq

/-- The options object passed through buildMessagesWithCache; only isNewWeek
is read by the cache builders. -/
structure BuildOptions where
  isNewWeek : Bool
deriving DecidableEq

/-- JS template-literal rendering of a possibly-undefined value: an absent
field interpolates as the text undefined. -/
def jsUndef : Option String → String
  | none => "undefined"
  | some s => s

/-- JS template-literal rendering of a possibly-null value: null interpolates
as the text null (sendMessage defaults systemPrompt to null). -/
def jsNull : Option String → String
  | none => "null"
  | some s => s

/-- JS truthiness of a string-or-null value: null, undefined and the empty
string are falsy. -/
def strTruthy : Option String → Bool
  | none => false
  | some s => !(s == "")

/-- ClaudeService.calculateTokens: returns 0 for null/undefined/empty input,
otherwise the character-based estimation ceil(length / 4) (the fallback the
spec describes; the optional precise tokenizer is an external library). -/
def calculateTokens : Option String → Nat
  | none => 0
  | some s => if s = "" then 0 else (s.length + 3) / 4

/-- JS String.prototype.toLowerCase restricted to the alphabets the keyword
tables use: ASCII letters and Russian Cyrillic letters are lower-cased,
every other character is left unchanged. -/
def jsToLowerChar (c : Char) : Char :=
  if 'A' ≤ c ∧ c ≤ 'Z' then Char.ofNat (c.toNat + 32)
  else if 'А' ≤ c ∧ c ≤ 'Я' then Char.ofNat (c.toNat + 32)
  else if c = 'Ё' then 'ё'
  else c

/-- Lower-casing a whole string, character by character. -/
def jsToLower (s : String) : String := String.map jsToLowerChar s

/-- JS String.prototype.includes: the needle occurs as a contiguous
substring of the haystack. -/
def strIncludes (hay needle : String) : Bool :=
  decide (needle.data <:+: hay.data)

/-- The fixed ordered topic table of ClaudeService.extractKeyThemes
(Object.entries iterates in insertion order). -/
def themesTable : List (String × List String) :=
  [("работа и стресс", ["работа", "стресс", "коллеги", "начальник", "проект", "дедлайн"]),
   ("отношения", ["семья", "партнер", "друзья", "отношения", "любовь", "конфликт"]),
   ("эмоции", ["тревога", "депрессия", "злость", "страх", "радость", "грусть"]),
   ("здоровье", ["сон", "усталость", "болезнь", "лечение", "врач"]),
   ("личностное развитие", ["цели", "мечты", "планы", "развитие", "успех", "неудача"])]

/-- ClaudeService.extractKeyThemes: join the contents with a space,
lower-case, collect in table order every topic one of whose keywords occurs,
and render the found topics or the generic fallback phrase. -/
def extractKeyThemes (messages : List Msg) : String :=
  let content := jsToLower (String.intercalate " " (messages.map (fun m => jsUndef m.content)))
  let foundThemes := (themesTable.filter (fun tk => tk.2.any (fun kw => strIncludes content kw))).map (fun tk => tk.1)
  if foundThemes.isEmpty then "обсуждались различные личные вопросы"
  else "обсуждались темы: " ++ String.intercalate ", " foundThemes

/-- The fixed ordered emotion table of ClaudeService.extractEmotions. -/
def emotionsTable : List (String × List String) :=
  [("тревожное", ["беспокоюсь", "тревожно", "страшно", "волнуюсь", "нервничаю"]),
   ("грустное", ["грустно", "печально", "расстроен", "депрессия", "плохо"]),
   ("злое", ["злюсь", "бесит", "раздражает", "ненавижу", "гнев"]),
   ("позитивное", ["хорошо", "радуюсь", "счастлив", "отлично", "здорово"]),
   ("усталое", ["устал", "выматывает", "измотан", "нет сил"])]

/-- ClaudeService.extractEmotions: the fixed neutral answer when the patient
message list is empty; otherwise the first table entry, in table order, one
of whose keywords occurs in the lower-cased space-joined contents, with the
mixed answer as default. -/
def extractEmotions (patientMessages : List Msg) : String :=
  if patientMessages.isEmpty then "нейтральное"
  else
    let content := jsToLower (String.intercalate " " (patientMessages.map (fun m => jsUndef m.content)))
    match emotionsTable.find? (fun ek => ek.2.any (fun kw => strIncludes content kw)) with
    | some ek => ek.1
    | none => "смешанное"

/-- The segment-grouping loop of ClaudeService.summarizeConversationHistory:
currentSegment accumulates messages and is flushed to the segment list when
it reaches length 8 or the last message has been consumed. The first
argument is the currentSegment accumulator, the second the remaining
messages; the single-element case is the JS test i === messages.length - 1. -/
def conversationSegments : List Msg → List Msg → List (List Msg)
  | _, [] => []
  | current, [m] => [current ++ [m]]
  | current, m :: m2 :: rest =>
      if 8 ≤ (current ++ [m]).length then
        (current ++ [m]) :: conversationSegments [] (m2 :: rest)
      else
        conversationSegments (current ++ [m]) (m2 :: rest)

/-- One summary sentence of a segment, as built by the template literal in
summarizeConversationHistory; the patient messages are the assistant-role
subset of the segment. -/
def segmentSentence (index : Nat) (segment : List Msg) : String :=
  "Сегмент " ++ toString (index + 1) ++ ": " ++ extractKeyThemes segment ++
    ". Эмоциональное состояние: " ++
    extractEmotions (segment.filter (fun m => m.role == some "assistant")) ++ "."

/-- The segments.map((segment, index) => ...) step: one sentence per segment,
with its zero-based index. -/
def segmentSummaries (index : Nat) : List (List Msg) → List String
  | [] => []
  | seg :: rest => segmentSentence index seg :: segmentSummaries (index + 1) rest

/-- ClaudeService.summarizeConversationHistory: the fixed placeholder for a
null/undefined or empty run, otherwise the segment sentences joined with a
single space. -/
def summarizeConversationHistory (messages : Option (List Msg)) : String :=
  match messages with
  | none => "Сессия только началась."
  | some msgs =>
    if msgs.isEmpty then "Сессия только началась."
    else String.intercalate " " (segmentSummaries 0 (conversationSegments [] msgs))

/-- The verbatim role-labelled rendering of the older turns used by
buildSlidingWindowCache for moderately long conversations. -/
def renderLiteralHistory (old : List Msg) : String :=
  String.intercalate "\n" (old.map (fun m =>
    (if m.role == some "user" then "Терапевт" else "Пациент") ++ ": " ++ jsUndef m.content))

/-- The session-context framing paragraph of buildSlidingWindowCache,
chosen by options.isNewWeek. -/
def sessionContextOf (isNewWeek : Bool) (conversationHistory : String) : String :=
  if isNewWeek then
    "ПРОШЛАЯ СЕССИЯ (неделю назад):\n" ++ conversationHistory ++
      "\n\nНОВАЯ ВСТРЕЧА:\nПрошла неделя после предыдущей сессии. Начинайте как если бы пришли на новую встречу, помня что произошло на прошлой сессии. Можете упомянуть как прошла неделя, что изменилось, какие мысли были после прошлой встречи."
  else
    "ПРЕДЫДУЩИЙ КОНТЕКСТ СЕССИИ:\n" ++ conversationHistory ++
      "\n\nТЕКУЩИЙ ДИАЛОГ ПРОДОЛЖАЕТСЯ:"

/-- ClaudeService.buildSimpleSystemCache: all turns are sent verbatim; the
system prompt becomes a cacheable segment when truthy and at least 800
estimated tokens, an unannotated segment when truthy but smaller, and is
omitted when falsy. -/
def buildSimpleSystemCache (messages : List Msg) (systemPrompt : Option String) (systemTokens : Nat) : Payload :=
  let msgs := messages.map (fun m => ({ role := m.role, content := m.content, cache_control := none } : OutMsg))
  match systemPrompt with
  | some s =>
    if s = "" then { system := none, messages := msgs }
    else if 800 ≤ systemTokens then
      { system := some [{ type := "text", text := s, cache_control := some "ephemeral" }], messages := msgs }
    else
      { system := some [{ type := "text", text := s, cache_control := none }], messages := msgs }
  | none => { system := none, messages := msgs }

/-- ClaudeService.buildSlidingWindowCache: keep the last 6 turns literal
(slice(-6) and slice(0,-6); Nat subtraction reproduces the JS behaviour on
short lists), render the older turns either by summarization (30 or more
total messages) or verbatim, and wrap them after the original prompt into a
single always-cacheable system segment. -/
def buildSlidingWindowCache (messages : List Msg) (systemPrompt : Option String) (opts : BuildOptions) : Payload :=
  let recentCount := 6
  let recentMessages := messages.drop (messages.length - recentCount)
  let oldMessages := messages.take (messages.length - recentCount)
  let conversationHistory :=
    if 30 ≤ messages.length then summarizeConversationHistory (some oldMessages)
    else renderLiteralHistory oldMessages
  let sessionContext := sessionContextOf opts.isNewWeek conversationHistory
  let enhancedSystemPrompt := jsNull systemPrompt ++ "\n\n" ++ sessionContext
  { system := some [{ type := "text", text := enhancedSystemPrompt, cache_control := some "ephemeral" }],
    messages := recentMessages.map (fun m => ({ role := m.role, content := m.content, cache_control := none } : OutMsg)) }

/-- ClaudeService.determineStrategy, the strategy name the source logs. -/
def determineStrategy (messageCount systemTokens : Nat) : String :=
  if messageCount ≤ 10 then
    if 800 ≤ systemTokens then "system_cache" else "no_cache"
  else "sliding_window"

/-- ClaudeService.buildMessagesWithCache: short transcripts go through the
simple system-prompt path, longer ones through the sliding window. -/
def buildMessagesWithCache (messages : List Msg) (systemPrompt : Option String) (opts : BuildOptions) : Payload :=
  let systemTokens := calculateTokens systemPrompt
  if messages.length ≤ 10 then buildSimpleSystemCache messages systemPrompt systemTokens
  else buildSlidingWindowCache messages systemPrompt opts

/-- The error classes observable from the builder at the JS level: a runtime
TypeError (property access on null/undefined) or the ValidationError class
exported by src/utils/validation.js. -/
inductive JsError where
  | typeError
  | validationError
deriving DecidableEq

/-- ClaudeService.buildMessagesWithCache at the dynamic JS level: the body
performs no input validation, so a non-sequence (null/undefined) transcript
fails immediately with a TypeError when messages.length is read, and every
array input is processed without any error being raised. -/
def buildMessagesWithCacheJs (messages : Option (List Msg)) (systemPrompt : Option String) (opts : BuildOptions) : Except JsError Payload :=
  match messages with
  | none => Except.error JsError.typeError
  | some msgs => Except.ok (buildMessagesWithCache msgs systemPrompt opts)

/-- The per-user rate-limit configuration (config.security.rateLimit). -/
structure RateLimitConfig where
  windowMs : Nat
  maxRequests : Nat
deriving DecidableEq

/-- ClaudeService.checkRateLimit for one user: the first component is the
returned admission verdict, the second the list stored in the rateLimiter
map after the call. The source filters the stored timestamps to those
younger than the window, rejects without writing anything back when the
filtered count has reached the limit, and otherwise stores the filtered
list extended with the current timestamp. -/
def checkRateLimit (cfg : RateLimitConfig) (userRequests : List Nat) (now : Nat) : Bool × List Nat :=
  let validRequests := userRequests.filter (fun timestamp => now - timestamp < cfg.windowMs)
  if cfg.maxRequests ≤ validRequests.length then (false, userRequests)
  else (true, validRequests ++ [now])

/-- The timer record SessionService stores in its inactivityTimers map: a JS
object whose warningTimer, endTimer and pauseTimer fields may each be
absent (undefined). -/
structure StoredTimers where
  warningTimer : Option Nat
  endTimer : Option Nat
  pauseTimer : Option Nat
deriving DecidableEq

/-- The timer-relevant state of one session: pending holds the handles of
every armed, not yet cancelled setTimeout in the runtime, entry is the
inactivityTimers map entry for the session, nextId issues fresh handles. -/
structure TimerState where
  pending : List Nat
  entry : Option StoredTimers
  nextId : Nat
deriving DecidableEq

/-- JS clearTimeout: cancels the named pending timeout; called on undefined
it does nothing. -/
def clearTimeoutJs (pending : List Nat) : Option Nat → List Nat
  | none => pending
  | some id => pending.filter (fun h => h ≠ id)

/-- SessionService.clearInactivityTimer: reads the map entry and, when
present, calls clearTimeout on its warningTimer and endTimer fields and
deletes the entry. A stored pauseTimer field is not passed to clearTimeout. -/
def clearInactivityTimer (s : TimerState) : TimerState :=
  match s.entry with
  | none => s
  | some timers =>
    { s with
      pending := clearTimeoutJs (clearTimeoutJs s.pending timers.warningTimer) timers.endTimer,
      entry := none }

/-- SessionService.startInactivityMonitoring: clear existing timers, then arm
a warning timeout and an end timeout and store both handles in the map. -/
def startInactivityMonitoring (s : TimerState) : TimerState :=
  let s := clearInactivityTimer s
  let warningTimer := s.nextId
  let endTimer := s.nextId + 1
  { pending := s.pending ++ [warningTimer, endTimer],
    entry := some { warningTimer := some warningTimer, endTimer := some endTimer, pauseTimer := none },
    nextId := s.nextId + 2 }

/-- SessionService.resetInactivityTimer: clear, then restart monitoring (the
warning-state map it also clears carries no timers). -/
def resetInactivityTimer (s : TimerState) : TimerState :=
  startInactivityMonitoring (clearInactivityTimer s)

/-- SessionService.handleContinueSession on an active session: refresh
activity and reset the inactivity timers. -/
def handleContinueSession (s : TimerState) : TimerState :=
  resetInactivityTimer s

/-- SessionService.handlePauseSession on an active session: clear existing
timers, then arm a single pause timeout and store it in the map under the
pauseTimer field only. -/
def handlePauseSession (s : TimerState) : TimerState :=
  let s := clearInactivityTimer s
  let pauseTimer := s.nextId
  { pending := s.pending ++ [pauseTimer],
    entry := some { warningTimer := none, endTimer := none, pauseTimer := some pauseTimer },
    nextId := s.nextId + 1 }

/-- The state of a session before any monitoring was started. -/
def initialTimerState : TimerState :=
  { pending := [], entry := none, nextId := 0 }

/-- One row of the conversation_history table as written by
ClaudeService.saveConversationToDB; created_at is modelled as an
insertion-ordered Nat (the source writes the current ISO timestamp, which
strictly increases across sequential inserts). JSON round-tripping of the
messages array is the identity. -/
structure ConvRow where
  session_id : String
  messages : List Msg
  response_content : String
  created_at : Nat
deriving DecidableEq

/-- ClaudeService.saveConversationToDB: inserts one row holding the entire
messages array it was given plus the response content. -/
def saveConversationToDB (db : List ConvRow) (sessionId : String) (messages : List Msg) (responseContent : String) : List ConvRow :=
  db ++ [{ session_id := sessionId, messages := messages, response_content := responseContent, created_at := db.length }]

/-- ClaudeService.loadConversationFromDB: select the rows of the session
ordered by created_at descending, keep at most limit rows, reverse them
back to ascending order, and for each row push the parsed messages array
followed by one assistant message holding the response content. Because
created_at strictly increases with insertion, ORDER BY DESC then LIMIT then
Array.reverse equals taking the last limit matching rows in insertion
order, modelled as reverse, take, reverse. -/
def loadConversationFromDB (db : List ConvRow) (sessionId : String) (limit : Nat) : List Msg :=
  let matching := db.filter (fun r => r.session_id == sessionId)
  let conversations := (matching.reverse.take limit).reverse
  conversations.foldl
    (fun fullHistory conv =>
      fullHistory ++ conv.messages ++ [{ role := some "assistant", content := some conv.response_content }])
    []

/-- The transcript/persistence interplay of SessionService.sendMessage for a
run of therapist/patient exchanges: per exchange the therapist turn is
pushed, ClaudeService.sendMessage receives the whole history and saves it
with the response via saveConversationToDB, then the patient response is
pushed. Returns the in-memory history and the database rows. -/
def runExchanges (sessionId : String) : List (String × String) → List Msg × List ConvRow → List Msg × List ConvRow
  | [], st => st
  | (userContent, responseContent) :: rest, (history, db) =>
      let history1 := history ++ [{ role := some "user", content := some userContent }]
      let db1 := saveConversationToDB db sessionId history1 responseContent
      let history2 := history1 ++ [{ role := some "assistant", content := some responseContent }]
      runExchanges sessionId rest (history2, db1)

/- Helper lemmas shared by the claim theorems. -/

lemma buildSimpleSystemCache_messages (messages : List Msg) (systemPrompt : Option String) (systemTokens : Nat) :
    (buildSimpleSystemCache messages systemPrompt systemTokens).messages =
      messages.map (fun m => ({ role := m.role, content := m.content, cache_control := none } : OutMsg)) := by
  cases systemPrompt with
  | none => rfl
  | some s =>
    simp only [buildSimpleSystemCache]
    split
    · rfl
    · split <;> rfl

lemma buildSlidingWindowCache_messages (messages : List Msg) (systemPrompt : Option String) (opts : BuildOptions) :
    (buildSlidingWindowCache messages systemPrompt opts).messages =
      (messages.drop (messages.length - 6)).map (fun m => ({ role := m.role, content := m.content, cache_control := none } : OutMsg)) := rfl

lemma buildSlidingWindowCache_system (messages : List Msg) (systemPrompt : Option String) (opts : BuildOptions) :
    (buildSlidingWindowCache messages systemPrompt opts).system =
      some [{ type := "text",
              text := jsNull systemPrompt ++ "\n\n" ++
                sessionContextOf opts.isNewWeek
                  (if 30 ≤ messages.length then
                    summarizeConversationHistory (some (messages.take (messages.length - 6)))
                  else renderLiteralHistory (messages.take (messages.length - 6))),
              cache_control := some "ephemeral" }] := rfl

/-- C3: for every transcript, system prompt and options, no element of the
messages array of the payload returned by buildMessagesWithCache carries a
cache_control annotation, and the system array holds at most one segment,
the only place a cache annotation can appear. -/
theorem no_cache_annotation_on_messages (messages : List Msg) (systemPrompt : Option String) (opts : BuildOptions) :
    ((buildMessagesWithCache messages systemPrompt opts).messages.all (fun m => m.cache_control.isNone)) = true ∧
    ((buildMessagesWithCache messages systemPrompt opts).system.getD []).length ≤ 1 := by
  unfold buildMessagesWithCache
  constructor
  · split
    · rw [buildSimpleSystemCache_messages]
      simp [List.all_eq_true]
    · rw [buildSlidingWindowCache_messages]
      simp only [List.all_eq_true, Option.isNone_iff_eq_none]
      intro x hx
      obtain ⟨a, _, rfl⟩ := List.mem_map.mp hx
      rfl
  · split
    · cases systemPrompt with
      | none => simp [buildSimpleSystemCache]
      | some s =>
        simp only [buildSimpleSystemCache]
        split
        · simp
        · split <;> simp
    · rw [buildSlidingWindowCache_system]
      simp

/-- C4: evaluation of the session timer machinery at the failing trace. After
startInactivityMonitoring the pending set is the warning/end pair 0, 1;
handlePauseSession cancels them and arms the pause timeout 2; but
handleContinueSession, which the claim says cancels the pending pause timer
before arming the new pair, leaves timeout 2 pending in the runtime next to
the fresh pair 3, 4, because clearInactivityTimer only passes the
warningTimer and endTimer fields to clearTimeout and a pause record has
neither. Three timeouts from two different sets are then pending at once. -/
theorem pause_timer_survives_rearm :
    (handlePauseSession (startInactivityMonitoring initialTimerState)).pending = [2] ∧
    (handleContinueSession (handlePauseSession (startInactivityMonitoring initialTimerState))).pending = [2, 3, 4] ∧
    ¬ ((handleContinueSession (handlePauseSession (startInactivityMonitoring initialTimerState))).pending.length ≤ 2) := by
  decide

/-- C9: evaluation of the persistence round trip at two appended turn pairs.
Each save stores the whole history prefix, and the load concatenates every
stored prefix with its response, so loading after the exchanges (q1, r1)
and (q2, r2) yields six messages with the first pair duplicated instead of
the four appended messages. -/
theorem conversation_roundtrip_duplication :
    (runExchanges "s" [("q1", "r1"), ("q2", "r2")] ([], [])).1 =
      [{ role := some "user", content := some "q1" }, { role := some "assistant", content := some "r1" },
       { role := some "user", content := some "q2" }, { role := some "assistant", content := some "r2" }] ∧
    loadConversationFromDB (runExchanges "s" [("q1", "r1"), ("q2", "r2")] ([], [])).2 "s" 50 =
      [{ role := some "user", content := some "q1" }, { role := some "assistant", content := some "r1" },
       { role := some "user", content := some "q1" }, { role := some "assistant", content := some "r1" },
       { role := some "user", content := some "q2" }, { role := some "assistant", content := some "r2" }] ∧
    loadConversationFromDB (runExchanges "s" [("q1", "r1"), ("q2", "r2")] ([], [])).2 "s" 50 ≠
      (runExchanges "s" [("q1", "r1"), ("q2", "r2")] ([], [])).1 := by
  refine ⟨rfl, rfl, ?_⟩
  decide

/-- C10: when checkRateLimit rejects, the stored per-user timestamp list is
left exactly as it was, so a rejected call never consumes quota: any later
call behaves as if the rejected call had not happened. -/
theorem reject_leaves_state (cfg : RateLimitConfig) (reqs : List Nat) (now : Nat)
    (h : (checkRateLimit cfg reqs now).1 = false) :
    (checkRateLimit cfg reqs now).2 = reqs ∧
    ∀ later, checkRateLimit cfg (checkRateLimit cfg reqs now).2 later = checkRateLimit cfg reqs later := by
  by_cases hc : cfg.maxRequests ≤ (reqs.filter (fun timestamp => now - timestamp < cfg.windowMs)).length
  · have h2 : (checkRateLimit cfg reqs now).2 = reqs := by
      simp [checkRateLimit, hc]
    exact ⟨h2, fun later => by rw [h2]⟩
  · exfalso
    have h1 : (checkRateLimit cfg reqs now).1 = true := by
      simp [checkRateLimit, hc]
    rw [h1] at h
    exact Bool.noConfusion h

/-- Witness for C10 at a concrete rejected call: with maxRequests 0 every
check is rejected and the state survives untouched. -/
theorem reject_leaves_state_witness :
    (checkRateLimit ⟨60000, 0⟩ [] 5).1 = false ∧
    (checkRateLimit ⟨60000, 0⟩ [] 5).2 = [] ∧
    checkRateLimit ⟨60000, 0⟩ (checkRateLimit ⟨60000, 0⟩ [] 5).2 7 = checkRateLimit ⟨60000, 0⟩ [] 7 := by
  have h : (checkRateLimit ⟨60000, 0⟩ [] 5).1 = false := by decide
  exact ⟨h, (reject_leaves_state ⟨60000, 0⟩ [] 5 h).1, (reject_leaves_state ⟨60000, 0⟩ [] 5 h).2 7⟩

/-- C7: for any start time t and the window of 60000 ms with limit 5, five
checks at t .. t+4 are admitted and each records its timestamp, a sixth
check at t+5 is rejected leaving the stored list untouched, and a check at
t+60001 is admitted again because the timestamps older than the window are
pruned before the count is compared to the limit. Each equation feeds the
stored list of the previous call into the next one. -/
theorem rate_limit_admission_sequence (t : Nat) :
    checkRateLimit ⟨60000, 5⟩ [] t = (true, [t]) ∧
    checkRateLimit ⟨60000, 5⟩ [t] (t + 1) = (true, [t, t + 1]) ∧
    checkRateLimit ⟨60000, 5⟩ [t, t + 1] (t + 2) = (true, [t, t + 1, t + 2]) ∧
    checkRateLimit ⟨60000, 5⟩ [t, t + 1, t + 2] (t + 3) = (true, [t, t + 1, t + 2, t + 3]) ∧
    checkRateLimit ⟨60000, 5⟩ [t, t + 1, t + 2, t + 3] (t + 4) = (true, [t, t + 1, t + 2, t + 3, t + 4]) ∧
    checkRateLimit ⟨60000, 5⟩ [t, t + 1, t + 2, t + 3, t + 4] (t + 5) = (false, [t, t + 1, t + 2, t + 3, t + 4]) ∧
    (checkRateLimit ⟨60000, 5⟩ [t, t + 1, t + 2, t + 3, t + 4] (t + 60001)).1 = true := by
  have hsub0 : ∀ a : Nat, t + a - t = a := fun a => by omega
  have hsub : ∀ a b : Nat, t + a - (t + b) = a - b := fun a b => by omega
  have hself : t - t = 0 := by omega
  refine ⟨?_, ?_, ?_, ?_, ?_, ?_, ?_⟩ <;>
    simp [checkRateLimit, List.filter, hsub0, hsub, hself]

/-- C2: when the window strategy is in effect (more than 10 messages), the
messages array of the payload has length min 6 messageCount and consists of
exactly the most recent turns in original order; under the simple strategy
the full transcript is sent verbatim. -/
theorem window_recent_turns (messages : List Msg) (systemPrompt : Option String) (opts : BuildOptions) :
    (10 < messages.length →
      (buildMessagesWithCache messages systemPrompt opts).messages.length = min 6 messages.length ∧
      (buildMessagesWithCache messages systemPrompt opts).messages =
        (messages.drop (messages.length - 6)).map
          (fun m => ({ role := m.role, content := m.content, cache_control := none } : OutMsg))) ∧
    (messages.length ≤ 10 →
      (buildMessagesWithCache messages systemPrompt opts).messages =
        messages.map (fun m => ({ role := m.role, content := m.content, cache_control := none } : OutMsg))) := by
  constructor
  · intro h
    have hb : buildMessagesWithCache messages systemPrompt opts = buildSlidingWindowCache messages systemPrompt opts := by
      simp [buildMessagesWithCache, Nat.not_le.mpr h]
    rw [hb, buildSlidingWindowCache_messages]
    refine ⟨?_, rfl⟩
    rw [List.length_map, List.length_drop]
    omega
  · intro h
    have hb : buildMessagesWithCache messages systemPrompt opts =
        buildSimpleSystemCache messages systemPrompt (calculateTokens systemPrompt) := by
      simp [buildMessagesWithCache, h]
    rw [hb, buildSimpleSystemCache_messages]

/-- Concrete example transcripts used by the witnesses. -/
def msgs11 : List Msg := List.replicate 11 { role := some "user", content := some "m" }

/-- A one-element transcript used by the witnesses. -/
def msgs1 : List Msg := [{ role := some "user", content := some "a" }]

/-- Witness for C2: at an 11-element transcript the window facts hold, and at
a 1-element transcript the payload repeats the transcript verbatim. -/
theorem window_recent_turns_witness :
    (10 < msgs11.length ∧
      (buildMessagesWithCache msgs11 (some "prompt") ⟨false⟩).messages.length = min 6 msgs11.length) ∧
    (msgs1.length ≤ 10 ∧
      (buildMessagesWithCache msgs1 (some "prompt") ⟨false⟩).messages =
        [{ role := some "user", content := some "a", cache_control := none }]) := by
  refine ⟨⟨by decide, ?_⟩, ⟨by decide, ?_⟩⟩
  · exact ((window_recent_turns msgs11 (some "prompt") ⟨false⟩).1 (by decide)).1
  · exact (window_recent_turns msgs1 (some "prompt") ⟨false⟩).2 (by decide)

lemma conversationSegments_length (current l : List Msg) (hl : l ≠ []) (hc : current.length < 8) :
    (conversationSegments current l).length = (current.length + l.length + 7) / 8 := by
  induction current, l using conversationSegments.induct with
  | case1 current => exact absurd rfl hl
  | case2 current m =>
    simp only [conversationSegments, List.length_cons, List.length_nil, List.length_singleton]
    omega
  | case3 current m m2 rest h ih =>
    simp only [conversationSegments, if_pos h, List.length_cons]
    rw [ih (by simp) (by simp)]
    simp only [List.length_append, List.length_cons, List.length_nil, List.length_singleton] at h ⊢
    omega
  | case4 current m m2 rest h ih =>
    simp only [conversationSegments, if_neg h]
    rw [ih (by simp) (Nat.lt_of_not_le h)]
    simp only [List.length_append, List.length_cons, List.length_nil, List.length_singleton]
    omega

lemma conversationSegments_flatten (current l : List Msg) (hl : l ≠ []) :
    (conversationSegments current l).flatten = current ++ l := by
  induction current, l using conversationSegments.induct with
  | case1 current => exact absurd rfl hl
  | case2 current m => simp [conversationSegments]
  | case3 current m m2 rest h ih =>
    simp only [conversationSegments, if_pos h, List.flatten_cons]
    rw [ih (by simp)]
    simp
  | case4 current m m2 rest h ih =>
    simp only [conversationSegments, if_neg h]
    rw [ih (by simp)]
    simp

lemma conversationSegments_mem (current l : List Msg) (hc : current.length < 8) :
    ∀ seg ∈ conversationSegments current l, seg ≠ [] ∧ seg.length ≤ 8 := by
  induction current, l using conversationSegments.induct with
  | case1 current => intro seg hseg; simp [conversationSegments] at hseg
  | case2 current m =>
    intro seg hseg
    simp only [conversationSegments, List.mem_singleton] at hseg
    subst hseg
    constructor
    · simp
    · simp only [List.length_append, List.length_singleton]
      omega
  | case3 current m m2 rest h ih =>
    intro seg hseg
    simp only [conversationSegments, if_pos h, List.mem_cons] at hseg
    rcases hseg with rfl | hseg
    · refine ⟨by simp, ?_⟩
      simp only [List.length_append, List.length_singleton]
      omega
    · exact ih (by simp) seg hseg
  | case4 current m m2 rest h ih =>
    intro seg hseg
    simp only [conversationSegments, if_neg h] at hseg
    exact ih (Nat.lt_of_not_le h) seg hseg

lemma segmentSummaries_length (index : Nat) (segs : List (List Msg)) :
    (segmentSummaries index segs).length = segs.length := by
  induction segs generalizing index with
  | nil => rfl
  | cons seg rest ih => simp [segmentSummaries, ih]

lemma segmentSentence_ne_empty (index : Nat) (segment : List Msg) :
    segmentSentence index segment ≠ "" := by
  intro h
  have h2 := congrArg String.length h
  simp only [segmentSentence, String.length_append] at h2
  have h3 : (0 : Nat) < "Сегмент ".length := by decide
  have h4 : ("" : String).length = 0 := by decide
  omega

lemma segmentSummaries_mem (index : Nat) (segs : List (List Msg)) :
    ∀ s ∈ segmentSummaries index segs, s ≠ "" := by
  induction segs generalizing index with
  | nil => intro s hs; simp [segmentSummaries] at hs
  | cons seg rest ih =>
    intro s hs
    simp only [segmentSummaries, List.mem_cons] at hs
    rcases hs with rfl | hs
    · exact segmentSentence_ne_empty index seg
    · exact ih (index + 1) s hs

/-- C5: summarizing an absent or empty run of turns returns the fixed
placeholder sentence; summarizing a nonempty run joins, with a single-space
separator, exactly ceil(N / 8) segment sentences, one per chunk of the
grouping of the turns into consecutive runs of at most 8 in order, each
sentence non-empty. -/
theorem summarize_history_segments (msgs : List Msg) :
    (summarizeConversationHistory none = "Сессия только началась." ∧
     summarizeConversationHistory (some []) = "Сессия только началась.") ∧
    (msgs ≠ [] →
      summarizeConversationHistory (some msgs) =
        String.intercalate " " (segmentSummaries 0 (conversationSegments [] msgs)) ∧
      (segmentSummaries 0 (conversationSegments [] msgs)).length = (msgs.length + 7) / 8 ∧
      (conversationSegments [] msgs).flatten = msgs ∧
      (∀ seg ∈ conversationSegments [] msgs, seg ≠ [] ∧ seg.length ≤ 8) ∧
      (∀ s ∈ segmentSummaries 0 (conversationSegments [] msgs), s ≠ "")) := by
  refine ⟨⟨rfl, rfl⟩, fun hne => ⟨?_, ?_, ?_, ?_, ?_⟩⟩
  · simp [summarizeConversationHistory, hne]
  · rw [segmentSummaries_length, conversationSegments_length [] msgs hne (by simp)]
    simp
  · exact conversationSegments_flatten [] msgs hne
  · exact conversationSegments_mem [] msgs (by simp)
  · exact segmentSummaries_mem 0 (conversationSegments [] msgs)

/-- A nine-element transcript used by the C5 witness; nine turns group into
two chunks, of eight turns and of one. -/
def msgs9 : List Msg := List.replicate 9 { role := some "user", content := some "m" }

/-- Witness for C5 at a concrete nine-turn run: two segment sentences. -/
theorem summarize_history_segments_witness :
    msgs9 ≠ [] ∧
    (segmentSummaries 0 (conversationSegments [] msgs9)).length = (msgs9.length + 7) / 8 := by
  refine ⟨by decide, ?_⟩
  exact ((summarize_history_segments msgs9).2 (by decide)).2.1

/-- The emotional state of one chunk as the amended claim C6 words it: it is
computed from the turns of the non-initiating (assistant-role) party only;
a chunk with no such turns reports the fixed neutral state; otherwise the
result is the first entry of the ordered emotion table whose keyword set
matches the lower-cased space-joined contents of those turns, defaulting to
the mixed state when no entry matches. -/
def emotionOfChunkSpec (chunk : List Msg) : String :=
  let nonInitiating := chunk.filter (fun m => m.role == some "assistant")
  if nonInitiating.isEmpty then "нейтральное"
  else
    let text := jsToLower (String.intercalate " " (nonInitiating.map (fun m => jsUndef m.content)))
    match emotionsTable.find? (fun entry => entry.2.any (fun kw => strIncludes text kw)) with
    | some entry => entry.1
    | none => "смешанное"

/-- C6 counterexample: a chunk whose turns all belong to the initiating
(user-role) party. The claim says the result defaults to the mixed state
when no table entry matches, but extractEmotions returns the distinct fixed
neutral answer for an empty assistant-role subset. -/
theorem emotion_default_counterexample :
    extractEmotions (List.filter (fun m => m.role == some "assistant")
      [{ role := some "user", content := some "привет" }]) = "нейтральное" ∧
    ("нейтральное" : String) ≠ "смешанное" := by
  exact ⟨rfl, by decide⟩

/-- C6 amended: for every chunk, the reported emotional state is computed
only from the assistant-role turns and equals the amended-claim value
(first matching table entry in order, mixed as default, and the fixed
neutral state for a chunk without assistant-role turns); the sentence of
each summarized segment carries exactly that value. -/
theorem emotion_per_chunk_amended (chunk : List Msg) (index : Nat) :
    extractEmotions (chunk.filter (fun m => m.role == some "assistant")) = emotionOfChunkSpec chunk ∧
    segmentSentence index chunk =
      "Сегмент " ++ toString (index + 1) ++ ": " ++ extractKeyThemes chunk ++
        ". Эмоциональное состояние: " ++ emotionOfChunkSpec chunk ++ "." := by
  exact ⟨rfl, rfl⟩

/-- C8 counterexample: the request builder raises a TypeError, not a
ValidationError, on a non-sequence transcript, and raises nothing at all on
a turn of the wrong shape, which it passes through instead. -/
theorem builder_no_validation_error_counterexample :
    buildMessagesWithCacheJs none (some "prompt") ⟨false⟩ = Except.error JsError.typeError ∧
    JsError.typeError ≠ JsError.validationError ∧
    buildMessagesWithCacheJs (some [{ role := none, content := none }]) (some "prompt") ⟨false⟩ =
      Except.ok (buildMessagesWithCache [{ role := none, content := none }] (some "prompt") ⟨false⟩) := by
  exact ⟨rfl, by decide, rfl⟩

/-- C8 amended: the builder performs no input validation: a non-sequence
transcript fails with a TypeError when its length is read, never with a
ValidationError, while every array transcript is processed without raising;
wrong-shaped turns are passed through field by field under the simple
strategy rather than dropped or rejected. -/
theorem builder_error_behavior_amended (systemPrompt : Option String) (opts : BuildOptions) (msgs : List Msg) :
    buildMessagesWithCacheJs none systemPrompt opts = Except.error JsError.typeError ∧
    buildMessagesWithCacheJs (some msgs) systemPrompt opts =
      Except.ok (buildMessagesWithCache msgs systemPrompt opts) ∧
    (msgs.length ≤ 10 →
      (buildMessagesWithCache msgs systemPrompt opts).messages =
        msgs.map (fun m => ({ role := m.role, content := m.content, cache_control := none } : OutMsg))) := by
  refine ⟨rfl, rfl, fun h => ?_⟩
  have hb : buildMessagesWithCache msgs systemPrompt opts =
      buildSimpleSystemCache msgs systemPrompt (calculateTokens systemPrompt) := by
    simp [buildMessagesWithCache, h]
  rw [hb, buildSimpleSystemCache_messages]

/-- Witness for C8 amended at a concrete wrong-shaped one-turn transcript. -/
theorem builder_error_behavior_amended_witness :
    (([{ role := none, content := none }] : List Msg).length ≤ 10) ∧
    (buildMessagesWithCache [{ role := none, content := none }] (some "prompt") ⟨false⟩).messages =
      [{ role := none, content := none, cache_control := none }] := by
  refine ⟨by decide, ?_⟩
  exact (builder_error_behavior_amended (some "prompt") ⟨false⟩ [{ role := none, content := none }]).2.2 (by decide)

/-- Case predicate of claim C1: a short transcript with a system prompt at or
above the caching floor. -/
def simpleCachedCase (messageCount systemTokens : Nat) : Prop :=
  messageCount ≤ 10 ∧ 800 ≤ systemTokens

/-- Case predicate of claim C1: a short transcript with a system prompt
below the caching floor. -/
def simpleUncachedCase (messageCount systemTokens : Nat) : Prop :=
  messageCount ≤ 10 ∧ systemTokens < 800

/-- Case predicate of claim C1: a moderately long transcript, rendered with
the literal sliding window. -/
def slidingLiteralCase (messageCount : Nat) : Prop :=
  10 < messageCount ∧ messageCount < 30

/-- Case predicate of claim C1: a very long transcript, rendered with the
summarized sliding window. -/
def slidingSummarizedCase (messageCount : Nat) : Prop :=
  30 ≤ messageCount

/-- C1: the builder selects exactly one strategy, determined solely by the
message count and the estimated system tokens: a short transcript yields the
simple build, with a cacheable system segment at 800 or more tokens and
with the cache annotation omitted entirely below that; a transcript of 11
to 29 messages yields the sliding window over the literally rendered older
turns; 30 or more messages yield the sliding window over the summarized
older turns; the four cases are mutually exclusive and exhaustive. -/
theorem strategy_selection_cases (messages : List Msg) (systemPrompt : Option String) (opts : BuildOptions) :
    (simpleCachedCase messages.length (calculateTokens systemPrompt) →
      determineStrategy messages.length (calculateTokens systemPrompt) = "system_cache" ∧
      buildMessagesWithCache messages systemPrompt opts =
        buildSimpleSystemCache messages systemPrompt (calculateTokens systemPrompt) ∧
      ∃ s, systemPrompt = some s ∧
        (buildMessagesWithCache messages systemPrompt opts).system =
          some [{ type := "text", text := s, cache_control := some "ephemeral" }]) ∧
    (simpleUncachedCase messages.length (calculateTokens systemPrompt) →
      determineStrategy messages.length (calculateTokens systemPrompt) = "no_cache" ∧
      buildMessagesWithCache messages systemPrompt opts =
        buildSimpleSystemCache messages systemPrompt (calculateTokens systemPrompt) ∧
      (∀ seg ∈ (buildMessagesWithCache messages systemPrompt opts).system.getD [],
        seg.cache_control = none)) ∧
    (slidingLiteralCase messages.length →
      determineStrategy messages.length (calculateTokens systemPrompt) = "sliding_window" ∧
      buildMessagesWithCache messages systemPrompt opts = buildSlidingWindowCache messages systemPrompt opts ∧
      (buildMessagesWithCache messages systemPrompt opts).system =
        some [{ type := "text",
                text := jsNull systemPrompt ++ "\n\n" ++
                  sessionContextOf opts.isNewWeek
                    (renderLiteralHistory (messages.take (messages.length - 6))),
                cache_control := some "ephemeral" }]) ∧
    (slidingSummarizedCase messages.length →
      determineStrategy messages.length (calculateTokens systemPrompt) = "sliding_window" ∧
      buildMessagesWithCache messages systemPrompt opts = buildSlidingWindowCache messages systemPrompt opts ∧
      (buildMessagesWithCache messages systemPrompt opts).system =
        some [{ type := "text",
                text := jsNull systemPrompt ++ "\n\n" ++
                  sessionContextOf opts.isNewWeek
                    (summarizeConversationHistory (some (messages.take (messages.length - 6)))),
                cache_control := some "ephemeral" }]) ∧
    ((simpleCachedCase messages.length (calculateTokens systemPrompt) ∨
      simpleUncachedCase messages.length (calculateTokens systemPrompt) ∨
      slidingLiteralCase messages.length ∨
      slidingSummarizedCase messages.length) ∧
     ¬ (simpleCachedCase messages.length (calculateTokens systemPrompt) ∧
        simpleUncachedCase messages.length (calculateTokens systemPrompt)) ∧
     ¬ (simpleCachedCase messages.length (calculateTokens systemPrompt) ∧
        slidingLiteralCase messages.length) ∧
     ¬ (simpleCachedCase messages.length (calculateTokens systemPrompt) ∧
        slidingSummarizedCase messages.length) ∧
     ¬ (simpleUncachedCase messages.length (calculateTokens systemPrompt) ∧
        slidingLiteralCase messages.length) ∧
     ¬ (simpleUncachedCase messages.length (calculateTokens systemPrompt) ∧
        slidingSummarizedCase messages.length) ∧
     ¬ (slidingLiteralCase messages.length ∧ slidingSummarizedCase messages.length)) := by
  refine ⟨?_, ?_, ?_, ?_, ?_⟩
  · rintro ⟨h10, h800⟩
    have hb : buildMessagesWithCache messages systemPrompt opts =
        buildSimpleSystemCache messages systemPrompt (calculateTokens systemPrompt) := by
      simp [buildMessagesWithCache, h10]
    refine ⟨by simp [determineStrategy, h10, h800], hb, ?_⟩
    cases systemPrompt with
    | none => simp [calculateTokens] at h800
    | some s =>
      have hs : ¬ s = "" := by
        intro he
        subst he
        simp [calculateTokens] at h800
      refine ⟨s, rfl, ?_⟩
      rw [hb]
      simp [buildSimpleSystemCache, hs, h800]
  · rintro ⟨h10, hlt⟩
    have hb : buildMessagesWithCache messages systemPrompt opts =
        buildSimpleSystemCache messages systemPrompt (calculateTokens systemPrompt) := by
      simp [buildMessagesWithCache, h10]
    refine ⟨by simp [determineStrategy, h10, Nat.not_le.mpr hlt], hb, ?_⟩
    rw [hb]
    cases systemPrompt with
    | none =>
      simp [buildSimpleSystemCache]
    | some s =>
      by_cases hs : s = ""
      · subst hs
        simp [buildSimpleSystemCache]
      · simp [buildSimpleSystemCache, hs, Nat.not_le.mpr hlt]
  · rintro ⟨h10, h30⟩
    have hb : buildMessagesWithCache messages systemPrompt opts =
        buildSlidingWindowCache messages systemPrompt opts := by
      simp [buildMessagesWithCache, Nat.not_le.mpr h10]
    refine ⟨by simp [determineStrategy, Nat.not_le.mpr h10], hb, ?_⟩
    rw [hb, buildSlidingWindowCache_system, if_neg (by omega)]
  · intro h30
    have h10 : ¬ messages.length ≤ 10 := by
      simp only [slidingSummarizedCase] at h30
      omega
    have hb : buildMessagesWithCache messages systemPrompt opts =
        buildSlidingWindowCache messages systemPrompt opts := by
      simp [buildMessagesWithCache, h10]
    have h30' : 30 ≤ messages.length := h30
    refine ⟨by simp [determineStrategy, h10], hb, ?_⟩
    rw [hb, buildSlidingWindowCache_system, if_pos h30']
  · simp only [simpleCachedCase, simpleUncachedCase, slidingLiteralCase, slidingSummarizedCase]
    omega

/-- Witness for C1 at a concrete 11-message transcript: the sliding-literal
case applies and yields the sliding-window build. -/
theorem strategy_selection_cases_witness :
    slidingLiteralCase msgs11.length ∧
    (determineStrategy msgs11.length (calculateTokens (some "prompt")) = "sliding_window" ∧
     buildMessagesWithCache msgs11 (some "prompt") ⟨false⟩ =
       buildSlidingWindowCache msgs11 (some "prompt") ⟨false⟩ ∧
     (buildMessagesWithCache msgs11 (some "prompt") ⟨false⟩).system =
       some [{ type := "text",
               text := jsNull (some "prompt") ++ "\n\n" ++
                 sessionContextOf false (renderLiteralHistory (msgs11.take (msgs11.length - 6))),
               cache_control := some "ephemeral" }]) := by
  refine ⟨(by decide : 10 < msgs11.length ∧ msgs11.length < 30), ?_⟩
  exact (strategy_selection_cases msgs11 (some "prompt") ⟨false⟩).2.2.1
    (by decide : 10 < msgs11.length ∧ msgs11.length < 30)
